import Mathlib

/-!
Shallow embedding of the tuya-sensor repository: a serverless handler that
signs requests to the Tuya cloud API (HMAC-SHA256 request signing), fetches
shadow properties for one or two devices, extracts temperature/humidity
readings, and caches the assembled multi-device result for five minutes.

Two source files are embedded:
* the multi-device handler (`src/unnamed/part_000`): signing, token fetch,
  parallel device fetch, `extractSensorData`, the module-level cache
  (`cachedData` / `lastFetchTimestamp`), and the response assembly;
* the single-device handler (`src/api/temp_hum.js`): same signing and fetch
  flow, but its response shaping divides the raw temperature by 10 exactly
  and passes humidity through unchanged.

Network responses are inputs to the embedded handler (the upstream platform
is an external collaborator), and the cryptographic primitives supplied by
the Node `crypto` module are parameters (`CryptoPrims`), since that module
is outside the repository; the computation of the repository itself — the exact
concatenation signed, the hex/uppercase post-processing, the extraction,
normalization, caching and control flow — is embedded directly.
-/

/-- Primitives taken from the Node `crypto` module (external to the repo):
lowercase-hex SHA-256 digest of a string, and lowercase-hex HMAC-SHA256 of a
message under a key. -/
structure CryptoPrims where
  sha256Hex : String → String
  hmacSha256Hex : String → String → String

/-- Token-issuance path, `part_000` line 63: `/v1.0/token?grant_type=1`. -/
def tokenPath : String := "/v1.0/token?grant_type=1"

/-- Per-device shadow-properties path, `part_000` line 107. -/
def devicePath (deviceId : String) : String :=
  "/v2.0/cloud/thing/" ++ deviceId ++ "/shadow/properties"

/-- `stringToSign = HTTPMethod + "\n" + Content-SHA256 + "\n" + Headers + "\n" + URL`
with the headers segment always empty (`part_000` lines 69 and 113). -/
def stringToSignFor (method contentHash path : String) : String :=
  method ++ "\n" ++ contentHash ++ "\n" ++ "\n" ++ path

/-- Signature for the token call (`part_000` lines 62–76): GET with empty
body, signing input `client_id + t + nonce + stringToSign` — no access
token — then lowercase-hex HMAC-SHA256 uppercased. -/
def tokenSign (c : CryptoPrims) (accessId secret timestamp nonce : String) : String :=
  let tokenContentHash := c.sha256Hex ""
  let stringToSignForToken := stringToSignFor "GET" tokenContentHash tokenPath
  let stringToHmacForToken := accessId ++ timestamp ++ nonce ++ stringToSignForToken
  (c.hmacSha256Hex secret stringToHmacForToken).toUpper

/-- Signature for the device-properties call (`part_000` lines 106–120):
GET with empty body, signing input
`client_id + access_token + t + nonce + stringToSign`, uppercased hex. -/
def apiSign (c : CryptoPrims) (accessId secret accessToken timestamp nonce deviceId : String) :
    String :=
  let contentHash := c.sha256Hex ""
  let stringToSignForApiRequest := stringToSignFor "GET" contentHash (devicePath deviceId)
  let stringToHmac := accessId ++ accessToken ++ timestamp ++ nonce ++ stringToSignForApiRequest
  (c.hmacSha256Hex secret stringToHmac).toUpper

/-- One `{code, value}` entry of the `properties` array in a device
response. -/
structure DeviceProp where
  code : String
  value : Int
deriving DecidableEq

/-- The `result` object of a device response; its `properties` field may be
absent (`data.result?.properties`). -/
structure DeviceResult where
  properties : Option (List DeviceProp)
deriving DecidableEq

/-- Parsed JSON body of a device response: `success` flag and optional
`result`. -/
structure DeviceBody where
  success : Bool
  result : Option DeviceResult
deriving DecidableEq

/-- A device HTTP response: `response.ok` plus the parsed body
(`await response.json()`). -/
structure DeviceResponse where
  ok : Bool
  data : DeviceBody
deriving DecidableEq

/-- Parsed JSON body of the token response; `access_token` stands for
`tokenData.result.access_token`, read only on the success path. -/
structure TokenBody where
  success : Bool
  access_token : String
deriving DecidableEq

/-- The token HTTP response: `tokenResponse.ok` plus the parsed body. -/
structure TokenResponse where
  ok : Bool
  data : TokenBody
deriving DecidableEq

/-- Predicate of the temperature lookup (`part_000` line 155):
`s.code` equal to `temp_current` or `va_temperature`. -/
def isTemperatureCode (s : DeviceProp) : Bool :=
  s.code == "temp_current" || s.code == "va_temperature"

/-- Predicate of the humidity lookup (`part_000` line 156):
`s.code` equal to `humidity_value` or `va_humidity`. -/
def isHumidityCode (s : DeviceProp) : Bool :=
  s.code == "humidity_value" || s.code == "va_humidity"

/-- `Math.floor(temperature / 10)` (`part_000` line 164): floor of the exact
division by 10 (JS number division, then `Math.floor`, which rounds toward
negative infinity). -/
def normalizeTemperature (temperature : Int) : Int :=
  ⌊(temperature : ℚ) / 10⌋

/-- `Math.min(humidity, 65)` (`part_000` line 165). -/
def normalizeHumidity (humidity : Int) : Int :=
  min humidity 65

/-- A normalized reading `{temperature, humidity}` as produced by
`extractSensorData`. -/
structure SensorReading where
  temperature : Int
  humidity : Int
deriving DecidableEq

/-- `extractSensorData` (`part_000` lines 153–167): find the first property
matching either temperature alias and the first matching either humidity
alias in `data.result?.properties`; if either is absent return null,
otherwise floor-divide the temperature by 10 and cap the humidity at 65. -/
def extractSensorData (data : DeviceBody) : Option SensorReading :=
  let properties := data.result.bind DeviceResult.properties
  let temperature := (properties.bind (fun ps => ps.find? isTemperatureCode)).map DeviceProp.value
  let humidity := (properties.bind (fun ps => ps.find? isHumidityCode)).map DeviceProp.value
  match temperature, humidity with
  | some t, some h => some { temperature := normalizeTemperature t, humidity := normalizeHumidity h }
  | _, _ => none

/-- The multi-device response payload (`part_000` lines 184–193):
`{device: {...}, wine_device: {...}}` (the constant celsius `unit` field
is omitted as it carries no state). -/
structure ResponsePayload where
  device : SensorReading
  wine_device : SensorReading
deriving DecidableEq

/-- The module-level cache of `part_000` lines 21–22: `cachedData` (null or
a payload) and `lastFetchTimestamp` (milliseconds). -/
structure CacheState where
  cachedData : Option ResponsePayload
  lastFetchTimestamp : Int
deriving DecidableEq

/-- `CACHE_DURATION = 5 * 60 * 1000` (`part_000` line 23). -/
def CACHE_DURATION : Int := 5 * 60 * 1000

/-- The cache read of `part_000` lines 51–55: a hit iff `cachedData` is
non-null and `now - lastFetchTimestamp < CACHE_DURATION`. -/
def cacheGet (c : CacheState) (now : Int) : Option ResponsePayload :=
  match c.cachedData with
  | some d => if now - c.lastFetchTimestamp < CACHE_DURATION then some d else none
  | none => none

/-- The cache write of `part_000` lines 195–197: unconditionally store the
payload and the timestamp `now` sampled at the start of the invocation. -/
def cachePut (payload : ResponsePayload) (now : Int) : CacheState :=
  { cachedData := some payload, lastFetchTimestamp := now }

/-- Outcome of one invocation of the multi-device handler. -/
inductive HandlerResult where
  /-- line 54: respond 200 with the cached payload -/
  | cacheHit (payload : ResponsePayload)
  /-- line 200: respond 200 with the freshly assembled payload -/
  | ok (payload : ResponsePayload)
  /-- lines 94–97: the token call failed (non-ok status or `success:false`) -/
  | tokenError (details : TokenBody)
  /-- line 204: a device fetch threw (line 140) and the catch responded 500 -/
  | internalError
  /-- lines 175–180: respond 404, extraction incomplete for some device -/
  | notFound (device1Data device2Data : Option SensorReading)
deriving DecidableEq

/-- The GET path of the multi-device handler (`part_000` lines 50–205),
with the upstream responses as inputs: check the cache; on a miss check the
token response, then both device responses (fetched in parallel, the join
failing if either failed), then extract both readings; cache and respond
only when both extractions succeed. Returns the result together with the
cache state after the invocation. -/
def handler (cache : CacheState) (now : Int) (tokenResponse : TokenResponse)
    (device1Response device2Response : DeviceResponse) : HandlerResult × CacheState :=
  match cacheGet cache now with
  | some d => (.cacheHit d, cache)
  | none =>
    if !tokenResponse.ok || !tokenResponse.data.success then
      (.tokenError tokenResponse.data, cache)
    else if (!device1Response.ok || !device1Response.data.success) ||
        (!device2Response.ok || !device2Response.data.success) then
      (.internalError, cache)
    else
      let device1SensorData := extractSensorData device1Response.data
      let device2SensorData := extractSensorData device2Response.data
      match device1SensorData, device2SensorData with
      | some r1, some r2 =>
        let responseData : ResponsePayload := { device := r1, wine_device := r2 }
        (.ok responseData, cachePut responseData now)
      | d1, d2 => (.notFound d1 d2, cache)

/-- The reading shaped by the single-device handler (`temp_hum.js` lines
147–153): `temperature / 10` is exact JS number division (a rational), and
humidity is passed through unchanged. -/
structure SingleReading where
  temperature : ℚ
  humidity : Int
deriving DecidableEq

/-- Extraction and response shaping of `temp_hum.js` lines 134–153: same
property lookup as `extractSensorData`, but the response carries
`temperature / 10` without flooring and the humidity uncapped. -/
def singleDeviceReading (data : DeviceBody) : Option SingleReading :=
  let properties := data.result.bind DeviceResult.properties
  let temperature := (properties.bind (fun ps => ps.find? isTemperatureCode)).map DeviceProp.value
  let humidity := (properties.bind (fun ps => ps.find? isHumidityCode)).map DeviceProp.value
  match temperature, humidity with
  | some t, some h => some { temperature := (t : ℚ) / 10, humidity := h }
  | _, _ => none

/-- A property list in which both temperature aliases occur, the
lower-priority `va_temperature` listed before `temp_current`. -/
def aliasClashProps : List DeviceProp :=
  [ { code := "va_temperature", value := 50 },
    { code := "temp_current", value := 70 },
    { code := "humidity_value", value := 30 } ]
/-- A successful device body carrying `aliasClashProps`. -/
def aliasClashBody : DeviceBody :=
  { success := true, result := some { properties := some aliasClashProps } }
/-- A property list carrying the end-to-end example raw values: temperature
235 (tenths of a degree) and humidity 70. -/
def fullReadingProps : List DeviceProp :=
  [ { code := "temp_current", value := 235 },
    { code := "humidity_value", value := 70 } ]
/-- A successful device body carrying `fullReadingProps`. -/
def fullReadingBody : DeviceBody :=
  { success := true, result := some { properties := some fullReadingProps } }
/-- A property list on which the two handler variants agree: raw
temperature 230 (a multiple of 10) and raw humidity 60 (at most 65). -/
def agreeProps : List DeviceProp :=
  [ { code := "temp_current", value := 230 },
    { code := "humidity_value", value := 60 } ]
/-- A successful device body carrying `agreeProps`. -/
def agreeBody : DeviceBody :=
  { success := true, result := some { properties := some agreeProps } }
/-- The normalized reading of the end-to-end example: raw 235/70 becomes
23 °C and 65 %. -/
def successReading : SensorReading := { temperature := 23, humidity := 65 }
/-- The multi-device payload assembled from two `successReading`s. -/
def successPayload : ResponsePayload :=
  { device := successReading, wine_device := successReading }
/-- An empty cache slot (process start state, `part_000` lines 21–22). -/
def cacheEmpty : CacheState := { cachedData := none, lastFetchTimestamp := 0 }
/-- A cache slot freshly filled at time 0. -/
def cacheWarm : CacheState :=
  { cachedData := some successPayload, lastFetchTimestamp := 0 }
/-- A successful token response carrying token `T1`. -/
def tokenOK : TokenResponse :=
  { ok := true, data := { success := true, access_token := "T1" } }
/-- A token response whose body reports `success:false`. -/
def tokenFail : TokenResponse :=
  { ok := true, data := { success := false, access_token := "" } }
/-- A successful device response carrying `fullReadingProps`. -/
def devOK : DeviceResponse := { ok := true, data := fullReadingBody }
/-- A device response whose body reports `success:false`. -/
def devFail : DeviceResponse :=
  { ok := true, data := { success := false, result := none } }

/-- `Math.floor(t / 10)` on an integer is floor division by 10. -/
theorem normalizeTemperature_eq_fdiv (t : Int) : normalizeTemperature t = Int.fdiv t 10 := by
  rw [normalizeTemperature, show ((10 : ℚ)) = ((10 : ℕ) : ℚ) by norm_num,
    Rat.floor_intCast_div_natCast t 10, Int.fdiv_eq_ediv _ (by decide)]
  rfl

/-- Claim C1: for every input the signer produces
uppercase(hex(HMAC_SHA256(key = secret, message = clientId + [accessToken
if present] + timestamp + nonce + method + newline +
lowercase-hex-SHA256(requestBody) + newline + newline + urlPath))): the
access token is part of the signed message for the device-properties call
and absent for the token-acquisition call (both calls are GET with empty
body). -/
theorem signer_signature_structure (c : CryptoPrims)
    (accessId secret accessToken timestamp nonce deviceId : String) :
    tokenSign c accessId secret timestamp nonce =
      (c.hmacSha256Hex secret
        (accessId ++ timestamp ++ nonce ++
          ("GET" ++ "\n" ++ c.sha256Hex "" ++ "\n" ++ "\n" ++ tokenPath))).toUpper ∧
    apiSign c accessId secret accessToken timestamp nonce deviceId =
      (c.hmacSha256Hex secret
        (accessId ++ accessToken ++ timestamp ++ nonce ++
          ("GET" ++ "\n" ++ c.sha256Hex "" ++ "\n" ++ "\n" ++ devicePath deviceId))).toUpper :=
  ⟨rfl, rfl⟩

/-- Claim C2: the cache read is a hit iff a payload exists and
`now - fetchedAt` is under the 5-minute ttl; reading after a put returns
exactly the stored payload when within the ttl and a miss once the ttl has
elapsed. -/
theorem cache_get_ttl (c : CacheState) (p : ResponsePayload) (t now : Int) :
    ((cacheGet c now).isSome ↔
      c.cachedData.isSome ∧ now - c.lastFetchTimestamp < CACHE_DURATION) ∧
    cacheGet (cachePut p t) now =
      (if now - t < CACHE_DURATION then some p else none) := by
  constructor
  · cases h : c.cachedData <;> simp [cacheGet, h]
  · rfl

/-- Claim C3 counterexample: the code floors `-5 / 10` to `-1`, while
truncation toward zero would give `0`; the general clause of the claim
("integer-divided by 10, truncating toward zero") fails at raw value −5
even though its own example table expects −1 there. -/
theorem temperature_trunc_toward_zero_false :
    normalizeTemperature (-5) = -1 ∧ Int.tdiv (-5) 10 = 0 ∧
      normalizeTemperature (-5) ≠ Int.tdiv (-5) 10 := by
  refine ⟨?_, by decide, ?_⟩ <;> (rw [normalizeTemperature_eq_fdiv]; decide)

/-- Claim C3 (amended): the normalized temperature is the raw value
floor-divided by 10 (rounding toward negative infinity), which coincides
with truncation toward zero for non-negative raw values; raw values
0, 5, 9, 10, 15, −5 normalize to 0, 0, 0, 1, 1, −1 respectively. -/
theorem temperature_floor_semantics (t : Int) :
    normalizeTemperature t = Int.fdiv t 10 ∧
    (0 ≤ t → normalizeTemperature t = Int.tdiv t 10) ∧
    normalizeTemperature 0 = 0 ∧ normalizeTemperature 5 = 0 ∧
    normalizeTemperature 9 = 0 ∧ normalizeTemperature 10 = 1 ∧
    normalizeTemperature 15 = 1 ∧ normalizeTemperature (-5) = -1 := by
  refine ⟨normalizeTemperature_eq_fdiv t, fun ht => ?_, ?_, ?_, ?_, ?_, ?_, ?_⟩
  · rw [normalizeTemperature_eq_fdiv, Int.fdiv_eq_ediv _ (by decide),
      Int.tdiv_eq_ediv ht (by decide)]
  all_goals (rw [normalizeTemperature_eq_fdiv]; decide)

/-- Witness for claim C3 (amended) at raw value 15. -/
theorem temperature_floor_semantics_witness :
    (0 : Int) ≤ 15 ∧ normalizeTemperature 15 = Int.tdiv 15 10 :=
  ⟨by decide, (temperature_floor_semantics 15).2.1 (by decide)⟩

/-- Claim C5: the normalized humidity is `min(h, 65)`: it never exceeds 65,
and any raw humidity at or below 65 passes through unchanged. -/
theorem humidity_clamp (h : Int) :
    normalizeHumidity h ≤ 65 ∧ (h ≤ 65 → normalizeHumidity h = h) := by
  unfold normalizeHumidity
  exact ⟨min_le_right _ _, fun hh => min_eq_left hh⟩

/-- Witness for claim C5 at raw humidity 40. -/
theorem humidity_clamp_witness : (40 : Int) ≤ 65 ∧ normalizeHumidity 40 = 40 :=
  ⟨by decide, (humidity_clamp 40).2 (by decide)⟩

/-- Characterization of a successful extraction: `extractSensorData` yields
a reading iff the property list is present and both alias lookups succeed,
the reading being built from the two `List.find?` results. -/
theorem extractSensorData_some_iff (data : DeviceBody) (r : SensorReading) :
    extractSensorData data = some r ↔
      ∃ ps tp hp, data.result.bind DeviceResult.properties = some ps ∧
        ps.find? isTemperatureCode = some tp ∧
        ps.find? isHumidityCode = some hp ∧
        r = { temperature := normalizeTemperature tp.value,
              humidity := normalizeHumidity hp.value } := by
  rcases data with ⟨succ, _ | ⟨_ | ps⟩⟩
  · simp [extractSensorData]
  · simp [extractSensorData]
  · cases ht : ps.find? isTemperatureCode <;> cases hh : ps.find? isHumidityCode <;>
      simp [extractSensorData, ht, hh, eq_comm]

/-- Claim C4 counterexample: with both temperature aliases present —
`va_temperature` (raw 50) listed before `temp_current` (raw 70) — the code
takes the first list entry matching either alias, yielding temperature 5,
not the 7 that the claimed `temp_current`-over-`va_temperature` preference
would give. -/
theorem extractor_alias_priority_false :
    extractSensorData aliasClashBody = some { temperature := 5, humidity := 30 } ∧
    normalizeTemperature 70 = 7 ∧
    extractSensorData aliasClashBody ≠
      some { temperature := normalizeTemperature 70, humidity := normalizeHumidity 30 } := by
  have h1 : extractSensorData aliasClashBody =
      some { temperature := normalizeTemperature 50, humidity := normalizeHumidity 30 } := rfl
  refine ⟨?_, ?_, ?_⟩ <;> (simp only [h1, normalizeTemperature_eq_fdiv]; decide)

/-- Claim C4 (amended): extraction returns a value iff the property list is
present and each measurement has at least one property matching one of its
alias codes (so null iff some measurement has no matching alias); when a
value is returned, each measurement takes the value of the first property
in list order whose code matches either of its aliases — list position,
not the `temp_current`-over-`va_temperature` priority, decides when both
aliases occur. -/
theorem extractor_none_iff_first_match (data : DeviceBody) :
    ((extractSensorData data).isSome ↔
      ∃ ps, data.result.bind DeviceResult.properties = some ps ∧
        (∃ x ∈ ps, isTemperatureCode x = true) ∧
        (∃ x ∈ ps, isHumidityCode x = true)) ∧
    (∀ ps r, data.result.bind DeviceResult.properties = some ps →
      extractSensorData data = some r →
      ∃ tp hp, ps.find? isTemperatureCode = some tp ∧
        ps.find? isHumidityCode = some hp ∧
        r = { temperature := normalizeTemperature tp.value,
              humidity := normalizeHumidity hp.value }) := by
  constructor
  · rw [Option.isSome_iff_exists]
    constructor
    · rintro ⟨r, hr⟩
      obtain ⟨ps, tp, hp, hps, ht, hh, -⟩ := (extractSensorData_some_iff data r).mp hr
      exact ⟨ps, hps, ⟨tp, List.mem_of_find?_eq_some ht, List.find?_some ht⟩,
        ⟨hp, List.mem_of_find?_eq_some hh, List.find?_some hh⟩⟩
    · rintro ⟨ps, hps, hT, hH⟩
      obtain ⟨tp, ht⟩ := Option.isSome_iff_exists.mp (List.find?_isSome.mpr hT)
      obtain ⟨hp, hh⟩ := Option.isSome_iff_exists.mp (List.find?_isSome.mpr hH)
      exact ⟨_, (extractSensorData_some_iff data _).mpr ⟨ps, tp, hp, hps, ht, hh, rfl⟩⟩
  · intro ps r hps hr
    obtain ⟨ps2, tp, hp, hps2, ht, hh, hr2⟩ := (extractSensorData_some_iff data r).mp hr
    rw [hps] at hps2
    cases Option.some.inj hps2
    exact ⟨tp, hp, ht, hh, hr2⟩

/-- Witness for claim C4 (amended) at `aliasClashBody`. -/
theorem extractor_none_iff_first_match_witness :
    ∃ tp hp, aliasClashProps.find? isTemperatureCode = some tp ∧
      aliasClashProps.find? isHumidityCode = some hp ∧
      ({ temperature := 5, humidity := 30 } : SensorReading) =
        { temperature := normalizeTemperature tp.value,
          humidity := normalizeHumidity hp.value } :=
  (extractor_none_iff_first_match aliasClashBody).2 aliasClashProps
    { temperature := 5, humidity := 30 } rfl
    (by
      have h1 : extractSensorData aliasClashBody =
          some { temperature := normalizeTemperature 50, humidity := normalizeHumidity 30 } := rfl
      rw [h1, normalizeTemperature_eq_fdiv]
      decide)

/-- Characterization of a successful single-device extraction, mirroring
`extractSensorData_some_iff` for `temp_hum.js`. -/
theorem singleDeviceReading_some_iff (data : DeviceBody) (r : SingleReading) :
    singleDeviceReading data = some r ↔
      ∃ ps tp hp, data.result.bind DeviceResult.properties = some ps ∧
        ps.find? isTemperatureCode = some tp ∧
        ps.find? isHumidityCode = some hp ∧
        r = { temperature := (tp.value : ℚ) / 10, humidity := hp.value } := by
  rcases data with ⟨succ, _ | ⟨_ | ps⟩⟩
  · simp [singleDeviceReading]
  · simp [singleDeviceReading]
  · cases ht : ps.find? isTemperatureCode <;> cases hh : ps.find? isHumidityCode <;>
      simp [singleDeviceReading, ht, hh, eq_comm]

/-- Claim C9 counterexample: on raw temperature 235 and humidity 70 the
single-device handler responds with 23.5 and 70 — it neither
integer-divides the temperature nor caps the humidity — while the
multi-device extractor produces 23 and 65 from the same raw response. -/
theorem single_handler_divergence :
    singleDeviceReading fullReadingBody =
      some { temperature := (47 : ℚ) / 2, humidity := 70 } ∧
    extractSensorData fullReadingBody =
      some { temperature := 23, humidity := 65 } ∧
    ¬((47 : ℚ) / 2 = ((23 : Int) : ℚ) ∧ (70 : Int) = 65) := by
  refine ⟨?_, ?_, ?_⟩
  · have h1 : singleDeviceReading fullReadingBody =
        some { temperature := (235 : ℚ) / 10, humidity := 70 } := rfl
    rw [h1]
    norm_num
  · have h1 : extractSensorData fullReadingBody =
        some { temperature := normalizeTemperature 235, humidity := normalizeHumidity 70 } := rfl
    rw [h1, normalizeTemperature_eq_fdiv]
    decide
  · rintro ⟨h, -⟩
    norm_num at h

/-- Claim C9 (amended): both handler variants read the same raw response in
the same way — their extractions succeed on exactly the same inputs — and
whenever the raw temperature is a multiple of 10 and the raw humidity is at
most 65 their readings coincide; in general the single-device variant
returns the exact quotient `raw / 10` (no flooring) and the humidity
uncapped, so the two agree only on such inputs. -/
theorem single_multi_agreement (data : DeviceBody) :
    ((singleDeviceReading data).isSome ↔ (extractSensorData data).isSome) ∧
    (∀ ps tp hp, data.result.bind DeviceResult.properties = some ps →
      ps.find? isTemperatureCode = some tp →
      ps.find? isHumidityCode = some hp →
      (10 : Int) ∣ tp.value → hp.value ≤ 65 →
      extractSensorData data =
        some { temperature := normalizeTemperature tp.value,
               humidity := normalizeHumidity hp.value } ∧
      singleDeviceReading data =
        some { temperature := ((normalizeTemperature tp.value : Int) : ℚ),
               humidity := normalizeHumidity hp.value }) := by
  constructor
  · rw [Option.isSome_iff_exists, Option.isSome_iff_exists]
    constructor
    · rintro ⟨r, hr⟩
      obtain ⟨ps, tp, hp, hps, ht, hh, -⟩ := (singleDeviceReading_some_iff data r).mp hr
      exact ⟨_, (extractSensorData_some_iff data _).mpr ⟨ps, tp, hp, hps, ht, hh, rfl⟩⟩
    · rintro ⟨r, hr⟩
      obtain ⟨ps, tp, hp, hps, ht, hh, -⟩ := (extractSensorData_some_iff data r).mp hr
      exact ⟨_, (singleDeviceReading_some_iff data _).mpr ⟨ps, tp, hp, hps, ht, hh, rfl⟩⟩
  · intro ps tp hp hps ht hh hdvd h65
    refine ⟨(extractSensorData_some_iff data _).mpr ⟨ps, tp, hp, hps, ht, hh, rfl⟩, ?_⟩
    refine (singleDeviceReading_some_iff data _).mpr ⟨ps, tp, hp, hps, ht, hh, ?_⟩
    obtain ⟨k, hk⟩ := hdvd
    have hT : ((normalizeTemperature tp.value : Int) : ℚ) = (tp.value : ℚ) / 10 := by
      rw [normalizeTemperature_eq_fdiv, hk,
        Int.mul_fdiv_cancel_left k (by decide : (10 : Int) ≠ 0),
        eq_div_iff (by norm_num : (10 : ℚ) ≠ 0)]
      push_cast
      ring
    have hH : normalizeHumidity hp.value = hp.value := min_eq_left h65
    rw [hT, hH]

/-- Witness for claim C9 (amended) at `agreeBody`. -/
theorem single_multi_agreement_witness :
    extractSensorData agreeBody =
      some { temperature := normalizeTemperature 230, humidity := normalizeHumidity 60 } ∧
    singleDeviceReading agreeBody =
      some { temperature := ((normalizeTemperature 230 : Int) : ℚ),
             humidity := normalizeHumidity 60 } :=
  (single_multi_agreement agreeBody).2 agreeProps
    { code := "temp_current", value := 230 } { code := "humidity_value", value := 60 }
    rfl rfl rfl (by decide) (by decide)

/-- Shape of every handler outcome: a cache hit, a token error, a device
(join) failure, an incomplete extraction — all leaving the cache as it was —
or a fresh payload assembled from both extractions and written with
`cachePut` at the invocation-start time. -/
theorem handler_shape (cache : CacheState) (now : Int) (tok : TokenResponse)
    (d1 d2 : DeviceResponse) :
    (∃ d, cacheGet cache now = some d ∧
      handler cache now tok d1 d2 = (HandlerResult.cacheHit d, cache)) ∨
    handler cache now tok d1 d2 = (HandlerResult.tokenError tok.data, cache) ∨
    handler cache now tok d1 d2 = (HandlerResult.internalError, cache) ∨
    (∃ e1 e2, handler cache now tok d1 d2 = (HandlerResult.notFound e1 e2, cache)) ∨
    (∃ r1 r2, extractSensorData d1.data = some r1 ∧
      extractSensorData d2.data = some r2 ∧
      handler cache now tok d1 d2 =
        (HandlerResult.ok { device := r1, wine_device := r2 },
         cachePut { device := r1, wine_device := r2 } now)) := by
  cases hc : cacheGet cache now with
  | some d => exact Or.inl ⟨d, rfl, by simp [handler, hc]⟩
  | none =>
    cases h1 : (!tok.ok || !tok.data.success) with
    | true => exact Or.inr (Or.inl (by simp [handler, hc, h1]))
    | false =>
      cases h2 : ((!d1.ok || !d1.data.success) || (!d2.ok || !d2.data.success)) with
      | true => exact Or.inr (Or.inr (Or.inl (by simp [handler, hc, h1, h2])))
      | false =>
        cases he1 : extractSensorData d1.data with
        | none =>
          exact Or.inr (Or.inr (Or.inr (Or.inl ⟨none, extractSensorData d2.data,
            by simp [handler, hc, h1, h2, he1]⟩)))
        | some r1 =>
          cases he2 : extractSensorData d2.data with
          | none =>
            exact Or.inr (Or.inr (Or.inr (Or.inl ⟨some r1, none,
              by simp [handler, hc, h1, h2, he1, he2]⟩)))
          | some r2 =>
            exact Or.inr (Or.inr (Or.inr (Or.inr ⟨r1, r2, rfl, rfl,
              by simp [handler, hc, h1, h2, he1, he2]⟩)))

/-- Claim C6: on every error or incomplete path — cache hit aside, token
failure, device failure, or a null extraction — the cache slot and its
timestamp are untouched; the only write ever performed stores a payload
fully populated from both device extractions. -/
theorem cache_unchanged_on_error_paths (cache : CacheState) (now : Int)
    (tok : TokenResponse) (d1 d2 : DeviceResponse) :
    ((∀ p, (handler cache now tok d1 d2).1 ≠ HandlerResult.ok p) →
      (handler cache now tok d1 d2).2 = cache) ∧
    (∀ p, (handler cache now tok d1 d2).1 = HandlerResult.ok p →
      (handler cache now tok d1 d2).2 = cachePut p now ∧
      extractSensorData d1.data = some p.device ∧
      extractSensorData d2.data = some p.wine_device) := by
  constructor
  · intro hno
    rcases handler_shape cache now tok d1 d2 with
      ⟨d, -, he⟩ | he | he | ⟨e1, e2, he⟩ | ⟨r1, r2, -, -, he⟩
    · rw [he]
    · rw [he]
    · rw [he]
    · rw [he]
    · exact absurd (by rw [he]) (hno { device := r1, wine_device := r2 })
  · intro p hp
    rcases handler_shape cache now tok d1 d2 with
      ⟨d, -, he⟩ | he | he | ⟨e1, e2, he⟩ | ⟨r1, r2, he1, he2, he⟩
    · rw [he] at hp; exact absurd hp (by simp)
    · rw [he] at hp; exact absurd hp (by simp)
    · rw [he] at hp; exact absurd hp (by simp)
    · rw [he] at hp; exact absurd hp (by simp)
    · rw [he] at hp
      obtain rfl := HandlerResult.ok.inj hp
      rw [he]
      refine ⟨rfl, ?_, ?_⟩
      · exact he1
      · exact he2

/-- Witness for claim C6: a failed token call leaves the cache untouched. -/
theorem cache_unchanged_on_error_paths_witness :
    (handler cacheEmpty 0 tokenFail devOK devOK).2 = cacheEmpty := by
  have hno : ∀ p, (handler cacheEmpty 0 tokenFail devOK devOK).1 ≠ HandlerResult.ok p := by
    intro p hp
    have h1 : (handler cacheEmpty 0 tokenFail devOK devOK).1 =
        HandlerResult.tokenError { success := false, access_token := "" } := rfl
    rw [h1] at hp
    exact HandlerResult.noConfusion hp
  exact (cache_unchanged_on_error_paths cacheEmpty 0 tokenFail devOK devOK).1 hno

/-- Claim C7: the two device queries are joined all-or-nothing: when the
cache misses and the token call succeeded, failure of either device query
(non-ok HTTP status or `success:false` body) makes the whole invocation
produce the error result — no lone single-device reading is returned and
the cache is not written. -/
theorem device_failure_fails_whole_batch (cache : CacheState) (now : Int)
    (tok : TokenResponse) (d1 d2 : DeviceResponse)
    (hmiss : cacheGet cache now = none)
    (htok : tok.ok = true ∧ tok.data.success = true)
    (hdev : d1.ok = false ∨ d1.data.success = false ∨
      d2.ok = false ∨ d2.data.success = false) :
    handler cache now tok d1 d2 = (HandlerResult.internalError, cache) := by
  obtain ⟨h1, h2⟩ := htok
  rcases hdev with h | h | h | h <;> simp [handler, hmiss, h1, h2, h]

/-- Witness for claim C7: the first device failing fails the batch. -/
theorem device_failure_fails_whole_batch_witness :
    cacheGet cacheEmpty 0 = none ∧
    (tokenOK.ok = true ∧ tokenOK.data.success = true) ∧
    devFail.data.success = false ∧
    handler cacheEmpty 0 tokenOK devFail devOK = (HandlerResult.internalError, cacheEmpty) :=
  ⟨rfl, ⟨rfl, rfl⟩, rfl,
    device_failure_fails_whole_batch cacheEmpty 0 tokenOK devFail devOK rfl ⟨rfl, rfl⟩
      (Or.inr (Or.inl rfl))⟩

/-- Claim C8: when the cache check hits, the handler responds immediately
with the cached payload and leaves the cache slot and timestamp unchanged,
and its outcome does not depend on the token or device responses — the
network inputs are irrelevant to a cache-hit invocation. -/
theorem cache_hit_no_network (cache : CacheState) (now : Int) (p : ResponsePayload)
    (tok tok2 : TokenResponse) (d1 d2 d1b d2b : DeviceResponse)
    (h : cacheGet cache now = some p) :
    handler cache now tok d1 d2 = (HandlerResult.cacheHit p, cache) ∧
    handler cache now tok d1 d2 = handler cache now tok2 d1b d2b := by
  have e : ∀ (t : TokenResponse) (a b : DeviceResponse),
      handler cache now t a b = (HandlerResult.cacheHit p, cache) := by
    intro t a b
    simp [handler, h]
  exact ⟨e tok d1 d2, (e tok d1 d2).trans (e tok2 d1b d2b).symm⟩

/-- Witness for claim C8 on a warm cache read 1 second after the write. -/
theorem cache_hit_no_network_witness :
    cacheGet cacheWarm 1000 = some successPayload ∧
    handler cacheWarm 1000 tokenFail devFail devFail =
      (HandlerResult.cacheHit successPayload, cacheWarm) ∧
    handler cacheWarm 1000 tokenFail devFail devFail =
      handler cacheWarm 1000 tokenOK devOK devOK := by
  have h : cacheGet cacheWarm 1000 = some successPayload := rfl
  exact ⟨h, cache_hit_no_network cacheWarm 1000 successPayload
    tokenFail tokenOK devFail devFail devOK devOK h⟩

/-- Claim C10: a successful multi-device fetch stores, with the payload,
the timestamp `now` sampled at the start of the invocation (before the
token and device network calls) rather than the moment of the write; a
later cache read at time `t` therefore hits exactly while `t - now` is
under the ttl, so the remaining freshness of the entry is the ttl minus the
duration of the fetch. -/
theorem cache_timestamp_invocation_start (cache : CacheState) (now : Int)
    (tok : TokenResponse) (d1 d2 : DeviceResponse) (p : ResponsePayload)
    (hp : (handler cache now tok d1 d2).1 = HandlerResult.ok p) :
    (handler cache now tok d1 d2).2 = cachePut p now ∧
    (handler cache now tok d1 d2).2.lastFetchTimestamp = now ∧
    (∀ t, cacheGet (handler cache now tok d1 d2).2 t =
      if t - now < CACHE_DURATION then some p else none) := by
  rcases handler_shape cache now tok d1 d2 with
    ⟨d, -, he⟩ | he | he | ⟨e1, e2, he⟩ | ⟨r1, r2, -, -, he⟩
  · rw [he] at hp; exact absurd hp (by simp)
  · rw [he] at hp; exact absurd hp (by simp)
  · rw [he] at hp; exact absurd hp (by simp)
  · rw [he] at hp; exact absurd hp (by simp)
  · rw [he] at hp
    obtain rfl := HandlerResult.ok.inj hp
    rw [he]
    exact ⟨rfl, rfl, fun t => rfl⟩

/-- Witness for claim C10: a successful fetch started at time 500 stores
timestamp 500. -/
theorem cache_timestamp_invocation_start_witness :
    (handler cacheEmpty 500 tokenOK devOK devOK).1 = HandlerResult.ok successPayload ∧
    (handler cacheEmpty 500 tokenOK devOK devOK).2.lastFetchTimestamp = 500 := by
  have hp : (handler cacheEmpty 500 tokenOK devOK devOK).1 =
      HandlerResult.ok successPayload := by
    have h1 : (handler cacheEmpty 500 tokenOK devOK devOK).1 =
        HandlerResult.ok
          { device := { temperature := normalizeTemperature 235,
                        humidity := normalizeHumidity 70 },
            wine_device := { temperature := normalizeTemperature 235,
                             humidity := normalizeHumidity 70 } } := rfl
    rw [h1, normalizeTemperature_eq_fdiv]
    decide
  exact ⟨hp, (cache_timestamp_invocation_start cacheEmpty 500 tokenOK devOK devOK
    successPayload hp).2.1⟩
